import Mathlib

/-
Verification of the click-tools input-parsing adapters (src/click_tools/cli.py)
against their natural-language specification.

The Python code is shallowly embedded: each converter class becomes a Lean
function over explicit models of its collaborators (filesystem, HTTP client,
standard input, the click context).  Python strings are Lean Strings; the
string helpers below model the exact Python primitives the code uses
(str.strip, str.lower, str.split on a comma, str.splitlines, text-stream line
iteration), restricted to ASCII, which covers every token the claims involve.
-/

namespace ClickTools

/-! ## Python string primitives -/

/-- Whitespace characters removed by Python str.strip() (ASCII subset). -/
def pyIsSpace (c : Char) : Bool :=
  c = ' ' || c = '\t' || c = '\n' || c = '\r' || c = Char.ofNat 11 || c = Char.ofNat 12

/-- Python str.strip(): drop leading and trailing whitespace. -/
def pyStrip (s : String) : String :=
  String.mk (((s.data.dropWhile pyIsSpace).reverse.dropWhile pyIsSpace).reverse)

/-- ASCII lower-casing of one character, as Python str.lower() does on ASCII. -/
def pyLowerChar (c : Char) : Char :=
  if 'A' ≤ c && c ≤ 'Z' then Char.ofNat (c.toNat + 32) else c

/-- Python str.lower() (ASCII subset). -/
def pyLower (s : String) : String :=
  String.mk (s.data.map pyLowerChar)

/-- Helper for pySplitComma: accumulate the current field, break at commas. -/
def splitCommaAux (acc : List Char) : List Char → List (List Char)
  | [] => [acc.reverse]
  | c :: rest =>
    if c = ',' then acc.reverse :: splitCommaAux [] rest
    else splitCommaAux (c :: acc) rest

/-- Python value.split(",").  On the empty string this gives [""], matching
Python; the callers below never reach it with "" because of their falsy
check. -/
def pySplitComma (s : String) : List String :=
  (splitCommaAux [] s.data).map String.mk

/-- Helper for pySplitlines: line contents without the newline terminator. -/
def splitlinesAux (acc : List Char) : List Char → List (List Char)
  | [] => if acc.isEmpty then [] else [acc.reverse]
  | c :: rest =>
    if c = '\n' then acc.reverse :: splitlinesAux [] rest
    else splitlinesAux (c :: acc) rest

/-- Python str.splitlines(): lines WITHOUT their newline terminators, no
empty final line after a trailing newline.  (Python also breaks on \r and
some unicode terminators; the bodies in the claims use only \n.) -/
def pySplitlines (s : String) : List String :=
  (splitlinesAux [] s.data).map String.mk

/-- Helper for pyFileLines: line contents keeping the newline terminator. -/
def fileLinesAux (acc : List Char) : List Char → List (List Char)
  | [] => if acc.isEmpty then [] else [acc.reverse]
  | c :: rest =>
    if c = '\n' then (c :: acc).reverse :: fileLinesAux [] rest
    else fileLinesAux (c :: acc) rest

/-- Iterating a Python text stream (an open file, or the stdin text stream
returned by click.get_text_stream) yields the lines WITH their trailing
newline character. -/
def pyFileLines (s : String) : List String :=
  (fileLinesAux [] s.data).map String.mk

/-- Remove trailing newline characters from a string (used only to relate
keep-newline iteration to splitlines output). -/
def pyStripNl (s : String) : String :=
  String.mk (s.data.reverse.dropWhile (fun c => c = '\n')).reverse

/-- Substring test helper over character lists. -/
def hasSubAux (p : List Char) : List Char → Bool
  | [] => p.isEmpty
  | c :: rest => p.isPrefixOf (c :: rest) || hasSubAux p rest

/-- Python substring containment: pat in s. -/
def strContains (s pat : String) : Bool :=
  hasSubAux pat.data s.data

/-- Model of Python list(set(l)) for strings.  Python leaves the order of a
set unspecified; we model it as a deterministic duplicate-removal (keeping
the last occurrence).  No claim depends on the order, only on membership. -/
def pySetList : List String → List String
  | [] => []
  | x :: xs => if xs.contains x then pySetList xs else x :: pySetList xs

/-! ## Python runtime values and exceptions used by TypeConvertingIterator -/

/-- The dynamic values flowing through TypeConvertingIterator in the claims:
strings from the source sequence and integers produced by int(). -/
inductive PyVal where
  | str (s : String)
  | int (n : Int)
deriving DecidableEq, Repr

/-- Exceptions of the embedded fragment: StopIteration (exhausted iterator)
and a conversion-function failure carrying its message. -/
inductive PyExc where
  | stopIteration
  | convError (msg : String)
deriving DecidableEq, Repr

/-- Digit-string evaluation for pyIntFun. -/
def digitsValAux (acc : Nat) : List Char → Option Nat
  | [] => some acc
  | c :: rest =>
    if c.isDigit then digitsValAux (acc * 10 + (c.toNat - 48)) rest else none

/-- Parse an optionally signed, non-empty run of decimal digits. -/
def parseIntChars : List Char → Option Int
  | [] => none
  | '-' :: rest =>
    match rest with
    | [] => none
    | _ => (digitsValAux 0 rest).map (fun n => -(n : Int))
  | '+' :: rest =>
    match rest with
    | [] => none
    | _ => (digitsValAux 0 rest).map (fun n => (n : Int))
  | l => digitsValAux 0 l

/-- Model of Python int() applied to one element: strips whitespace, parses a
signed decimal literal, raises ValueError (a conversion error) otherwise. -/
def pyIntFun (v : PyVal) : Except PyExc PyVal :=
  match v with
  | .int n => .ok (.int n)
  | .str s =>
    match parseIntChars (pyStrip s).data with
    | some n => .ok (.int n)
    | none => .error (.convError ("invalid literal for int() with base 10: " ++ s))

/-! ## TypeConvertingIterator (cli.py lines 10-59)

The source iterator is modelled as the list of elements it will yield; the
conversion function is Optional, exactly as in the Python constructor. -/

structure TypeConvertingIterator where
  iterator : List PyVal
  conversion_function : Option (PyVal → Except PyExc PyVal)

/-- TypeConvertingIterator.__init__ together with _check_convertibility.
itertools.tee duplicates the iteration state, so the peek at the first
element (next on the tee branch, then the conversion function) does not
consume the stored iterator: on success the full source is kept.  An empty
source re-raises StopIteration; a failing conversion of the first element
propagates from construction. -/
def TypeConvertingIterator.make (it : List PyVal)
    (cf : Option (PyVal → Except PyExc PyVal)) :
    Except PyExc TypeConvertingIterator :=
  match it with
  | [] => .error .stopIteration
  | first :: _ =>
    match cf with
    | some f =>
      match f first with
      | .error e => .error e
      | .ok _ => .ok ⟨it, cf⟩
    | none => .ok ⟨it, cf⟩

/-- TypeConvertingIterator.__next__: convert the next source element when a
conversion function is present, pass it through unchanged otherwise. -/
def TypeConvertingIterator.next? (t : TypeConvertingIterator) :
    Except PyExc (PyVal × TypeConvertingIterator) :=
  match t.iterator with
  | [] => .error .stopIteration
  | x :: rest =>
    match t.conversion_function with
    | some f =>
      match f x with
      | .error e => .error e
      | .ok y => .ok (y, ⟨rest, t.conversion_function⟩)
    | none => .ok (x, ⟨rest, t.conversion_function⟩)

/-- Repeatedly pulling __next__ until StopIteration (what list(it) does):
a StopIteration ends the iteration normally, any other exception raised by
the conversion function propagates. -/
def drainAux (cf : Option (PyVal → Except PyExc PyVal)) :
    List PyVal → Except PyExc (List PyVal)
  | [] => .ok []
  | x :: rest =>
    match (match cf with | some f => f x | none => .ok x) with
    | .error e => .error e
    | .ok y =>
      match drainAux cf rest with
      | .error e => .error e
      | .ok ys => .ok (y :: ys)

/-- All elements yielded by iterating the TypeConvertingIterator. -/
def TypeConvertingIterator.toList (t : TypeConvertingIterator) :
    Except PyExc (List PyVal) :=
  drainAux t.conversion_function t.iterator

/-- Spec-side description for C5: the conversion of every source element, in
source order. -/
def convertEach (f : PyVal → Except PyExc PyVal) :
    List PyVal → Except PyExc (List PyVal)
  | [] => .ok []
  | x :: xs =>
    match f x with
    | .error e => .error e
    | .ok y =>
      match convertEach f xs with
      | .error e => .error e
      | .ok ys => .ok (y :: ys)

/-! ## Click parameter values

A converter receives either the raw command-line token (a string) or an
already-split list (e.g. from a repeated invocation); the Python code
distinguishes the two with isinstance(value, list). -/

inductive ParamValue where
  | str (s : String)
  | list (xs : List String)
deriving DecidableEq, Repr

/-- Python truthiness of the incoming value: the empty string and the empty
list are falsy. -/
def pyFalsy : ParamValue → Bool
  | .str s => s = ""
  | .list xs => xs.isEmpty

/-! ## ChoiceCommaSeparated (cli.py lines 62-130) -/

structure ChoiceCommaSeparated where
  choices : List String
  allow_wildcard : Bool := true
  case_sensitive : Bool := true

/-- The per-part validation test of ChoiceCommaSeparated.convert, exactly as
in the source: with case_sensitive=True the LOWER-CASED part must be among
the lower-cased choices; with case_sensitive=False the part must be exactly
among the choices. -/
def ChoiceCommaSeparated.partOk (c : ChoiceCommaSeparated) (val : String) : Bool :=
  if c.case_sensitive then (c.choices.map pyLower).contains (pyLower val)
  else c.choices.contains val

/-- ChoiceCommaSeparated.convert.  Falsy input returns []; a string token is
split on commas and every part stripped; a list is used as-is; with
allow_wildcard, any part equal to "*" or "all" short-circuits to the full
choice list; otherwise the first part failing partOk raises
click.BadParameter (modelled as Except.error with the exact message), and on
success the parts are returned. -/
def ChoiceCommaSeparated.convert (c : ChoiceCommaSeparated) (value : ParamValue) :
    Except String (List String) :=
  if pyFalsy value then .ok []
  else
    let parts := match value with
      | .str s => (pySplitComma s).map pyStrip
      | .list xs => xs
    if c.allow_wildcard && parts.any (fun v => v = "*" || v = "all") then
      .ok c.choices
    else
      match parts.find? (fun val => !(c.partOk val)) with
      | some val => .error ("Value " ++ val ++ " is not a valid choice.")
      | none => .ok parts

/-! ## ListCommaSeparated (cli.py lines 133-177) -/

structure ListCommaSeparated where
  unique : Bool := true

/-- ListCommaSeparated.convert: falsy input returns []; a string token is
split on commas with each part stripped, a list is used as-is; with unique,
the result is list(set(...)) (membership-preserving dedup, order
unspecified).  It has no failure path. -/
def ListCommaSeparated.convert (u : ListCommaSeparated) (value : ParamValue) :
    List String :=
  if pyFalsy value then []
  else
    let lista := match value with
      | .str s => (pySplitComma s).map pyStrip
      | .list xs => xs
    if u.unique then pySetList lista else lista

/-! ## StringsListOrStdinParamType (cli.py lines 180-216) -/

/-- What StringsListOrStdinParamType.convert can return: the stdin text
stream, or a list of strings. -/
inductive StringsOrStdin where
  | stdinStream
  | list (xs : List String)
deriving DecidableEq, Repr

/-- StringsListOrStdinParamType.convert: the token "-" yields the stdin text
stream; any other string is wrapped in a one-element list; a non-string
(already a list) passes through unchanged. -/
def StringsListOrStdinParamType.convert (value : ParamValue) : StringsOrStdin :=
  match value with
  | .str s => if s = "-" then .stdinStream else .list [s]
  | .list xs => .list xs

/-! ## Environment model for the file / URL / stdin converters

The external collaborators (filesystem, validators.url, requests.get, the
stdin text stream) are explicit parameters.  The filesystem is the list of
existing files with their contents. -/

/-- Outcome of requests.get(value): either the exception raised (its str), or
a response with a status code and a UTF-8-decoded body. -/
inductive HttpOutcome where
  | err (msg : String)
  | resp (status : Nat) (content : String)
deriving DecidableEq, Repr

structure Env where
  fs : List (String × String)
  urlValid : String → Bool
  http : String → HttpOutcome
  stdin : String

/-- os.path.exists on the modelled filesystem. -/
def fsHas (fs : List (String × String)) (name : String) : Bool :=
  fs.any (fun p => p.1 == name)

/-- Content of an existing file. -/
def fsContent (fs : List (String × String)) (name : String) : String :=
  ((fs.find? (fun p => p.1 == name)).map Prod.snd).getD ""

/-- requests.Response.ok: true unless raise_for_status would raise, i.e.
unless 400 <= status_code < 600. -/
def pyOk (status : Nat) : Bool :=
  !(decide (400 ≤ status) && decide (status < 600))

/-- The body of the try-block shared by FileUrlIterStringParamType.convert
and FileOrUrlParamType.convert:

    r = requests.get(value)
    if not r.ok:
        self.fail("Url %s does not return 200 OK" % value, param, ctx)

An error value carries str(e) of the exception that escaped the try-block:
either the transport exception from requests.get, or the click.BadParameter
raised by self.fail (whose str is its message).  Note that the status-code
failure is raised INSIDE the try-block, so it is caught by the surrounding
except-clause like any transport error. -/
def fetchBody (env : Env) (value : String) : Except String String :=
  match env.http value with
  | .err msg => .error msg
  | .resp status content =>
    if pyOk status then .ok content
    else .error ("Url " ++ value ++ " does not return 200 OK")

/-! ## FileUrlIterStringParamType (cli.py lines 219-279)

The returned iterator is observed through the list of elements its iteration
yields: file and stdin branches yield text-stream lines (newline kept), the
URL branch yields content.splitlines() (newline stripped), the literal
branch yields the single token. -/

def FileUrlIterStringParamType.convert (mode : String) (env : Env)
    (value : String) : Except String (List String) :=
  if !(strContains mode "r") then
    .error "stream cannot be opened in non-read mode"
  else if fsHas env.fs value then
    .ok (pyFileLines (fsContent env.fs value))
  else if env.urlValid value then
    match fetchBody env value with
    | .error e => .error ("Error while fetching " ++ value ++ ": " ++ e)
    | .ok content => .ok (pySplitlines content)
  else if value = "-" then
    .ok (pyFileLines env.stdin)
  else
    .ok [value]

/-! ## FileOrUrlParamType and StringOrFileParamType (cli.py lines 341-455)

Both may create a temporary file and register a cleanup closure with
ctx.call_on_close (only when ctx is not None).  The conversion outcome
records the click.File handle (by the name it opens), the filesystem after
the call, and the cleanup callbacks registered during the call (each one
identified by the temp-file name it unlinks). -/

structure FileConvOut where
  result : Except String String
  fs : List (String × String)
  registered : List String
deriving Repr

/-- click.File.convert (external collaborator): "-" opens the stdin stream,
an existing path opens that file, anything else fails with the framework's
could-not-open-file error. -/
def clickFileOpen (fs : List (String × String)) (value : String) :
    Except String String :=
  if value = "-" then .ok "-"
  else if fsHas fs value then .ok value
  else .error ("Could not open file " ++ value ++ ": No such file or directory")

/-- FileOrUrlParamType.convert.  tmpName is the fresh name chosen by
tempfile.NamedTemporaryFile(delete=False). -/
def FileOrUrlParamType.convert (mode : String) (env : Env) (tmpName : String)
    (ctx : Option Unit) (value : String) : FileConvOut :=
  if env.urlValid value then
    if !(strContains mode "r") then
      ⟨.error ("Url " ++ value ++ " cannot be opened in non-read mode"), env.fs, []⟩
    else
      match fetchBody env value with
      | .error e =>
        ⟨.error ("Error while fetching " ++ value ++ ": " ++ e), env.fs, []⟩
      | .ok content =>
        let fs1 := env.fs ++ [(tmpName, content)]
        let registered := match ctx with | some _ => [tmpName] | none => []
        ⟨clickFileOpen fs1 tmpName, fs1, registered⟩
  else
    ⟨clickFileOpen env.fs value, env.fs, []⟩

/-- StringOrFileParamType.convert: a token that is neither "-" nor an
existing path is written verbatim to a temp file, which is then opened; the
same cleanup closure is registered when ctx is not None. -/
def StringOrFileParamType.convert (env : Env) (tmpName : String)
    (ctx : Option Unit) (value : String) : FileConvOut :=
  if value ≠ "-" && !(fsHas env.fs value) then
    let fs1 := env.fs ++ [(tmpName, value)]
    let registered := match ctx with | some _ => [tmpName] | none => []
    ⟨clickFileOpen fs1 tmpName, fs1, registered⟩
  else
    ⟨clickFileOpen env.fs value, env.fs, []⟩

/-- The registered cleanup closure:

    try:
        os.unlink(tmpfile.name)
    except OSError:
        pass

It is a total function on the filesystem: deleting an absent file raises
OSError, which is swallowed, leaving the filesystem unchanged. -/
def unlinkSilently (name : String) (fs : List (String × String)) :
    List (String × String) :=
  fs.filter (fun p => !(p.1 == name))

/-! ## UrlOrListFromFileStdinParamType (cli.py lines 458-493) -/

/-- What UrlOrListFromFileStdinParamType.convert returns: a one-element list
holding the URL, or the click.File handle. -/
inductive UrlOrFileResult where
  | urls (xs : List String)
  | handle (h : String)
deriving DecidableEq, Repr

/-- UrlOrListFromFileStdinParamType.convert: a well-formed URL is returned
as a one-element list without being fetched; anything else delegates to
click.File. -/
def UrlOrListFromFileStdinParamType.convert (env : Env) (value : String) :
    Except String UrlOrFileResult :=
  if env.urlValid value then .ok (.urls [value])
  else (clickFileOpen env.fs value).map .handle

/-! ## Concrete environments and abbreviations used in the claim theorems -/

/-- The comma-split, per-part-stripped decomposition of a raw string token,
as both comma-separated converters compute it. -/
def strippedParts (s : String) : List String :=
  (pySplitComma s).map pyStrip

/-- Environment for the C1 counterexample: the token is a well-formed URL,
no file of that name exists, and the GET returns status 404. -/
def envC1 : Env :=
  ⟨[], (fun s => s == "http://e/x"), (fun _ => .resp 404 "Not Found"), ""⟩

/-- Same URL, but requests.get raises a transport error. -/
def envC1T : Env :=
  ⟨[], (fun s => s == "http://e/x"), (fun _ => .err "boom"), ""⟩

/-- Environment for C3: stdin holds "hello\nworld\n" and the URL returns the
same text with status 200. -/
def envC3 : Env :=
  ⟨[], (fun s => s == "http://x/t"), (fun _ => .resp 200 "hello\nworld\n"),
   "hello\nworld\n"⟩

/-- Environment for the C6 witness: a URL whose GET succeeds. -/
def envC6 : Env :=
  ⟨[], (fun s => s == "http://e/x"), (fun _ => .resp 200 "data"), ""⟩

/-! ## Helper lemmas -/

theorem drainAux_eq_convertEach (f : PyVal → Except PyExc PyVal) :
    ∀ l : List PyVal, drainAux (some f) l = convertEach f l := by
  intro l
  induction l with
  | nil => rfl
  | cons x xs ih =>
    simp only [drainAux, convertEach, ih]

theorem partOk_iff (c : ChoiceCommaSeparated) (val : String) :
    c.partOk val = true ↔
      (if c.case_sensitive then ∃ ch ∈ c.choices, pyLower val = pyLower ch
       else val ∈ c.choices) := by
  unfold ChoiceCommaSeparated.partOk
  cases hcs : c.case_sensitive with
  | false =>
    simp [List.contains, List.elem_iff]
  | true =>
    simp [List.contains, List.elem_iff, List.mem_map]
    constructor
    · rintro ⟨ch, hch, heq⟩
      exact ⟨ch, hch, heq.symm⟩
    · rintro ⟨ch, hch, heq⟩
      exact ⟨ch, hch, heq.symm⟩

theorem mem_pySetList (x : String) (l : List String) :
    x ∈ pySetList l ↔ x ∈ l := by
  induction l with
  | nil => simp [pySetList]
  | cons a l ih =>
    by_cases h : a ∈ l
    · simp [pySetList, h, ih]
      intro hx
      rw [hx]
      exact h
    · simp [pySetList, h, ih]

theorem fsHas_append_self (fs : List (String × String)) (n c : String) :
    fsHas (fs ++ [(n, c)]) n = true := by
  simp [fsHas, List.any_append]

/-! ## Claim theorems -/

/-- C4: TypeConvertingIterator construction fails eagerly: on the empty
source, construction raises the exhausted-input condition (StopIteration,
re-raised by the check); on any source whose first element the conversion
function rejects, the conversion function's exception propagates from
construction itself (make returns that error — no iterator is produced, so
nothing is deferred to the first pull). -/
theorem typeConvertingIterator_eager_failure :
    (∀ cf, TypeConvertingIterator.make [] cf = .error .stopIteration) ∧
    (∀ (x : PyVal) (rest : List PyVal) (f : PyVal → Except PyExc PyVal) (e : PyExc),
      f x = .error e →
      TypeConvertingIterator.make (x :: rest) (some f) = .error e) := by
  refine ⟨fun cf => rfl, fun x rest f e h => ?_⟩
  simp [TypeConvertingIterator.make, h]

/-- Witness for C4: the empty source, and the source ["x"] with int(). -/
theorem typeConvertingIterator_eager_failure_witness :
    TypeConvertingIterator.make [] (some pyIntFun) = .error .stopIteration ∧
    TypeConvertingIterator.make [PyVal.str "x"] (some pyIntFun)
      = .error (.convError "invalid literal for int() with base 10: x") :=
  ⟨typeConvertingIterator_eager_failure.1 (some pyIntFun),
   typeConvertingIterator_eager_failure.2 (PyVal.str "x") [] pyIntFun
     (.convError "invalid literal for int() with base 10: x") rfl⟩

/-- C5: for a non-empty source on whose every element the conversion
function succeeds, construction succeeds and stores the FULL source (the
tee-based peek consumed nothing), and iterating the constructed
TypeConvertingIterator yields the conversion of every source element in
source order, including the first. -/
theorem typeConvertingIterator_yields_all (src : List PyVal)
    (f : PyVal → Except PyExc PyVal) (ys : List PyVal)
    (hne : src ≠ []) (hok : convertEach f src = .ok ys) :
    TypeConvertingIterator.make src (some f) = .ok ⟨src, some f⟩ ∧
    TypeConvertingIterator.toList ⟨src, some f⟩ = .ok ys := by
  constructor
  · cases src with
    | nil => exact absurd rfl hne
    | cons a l =>
      simp only [convertEach] at hok
      cases hfa : f a with
      | error e => rw [hfa] at hok; cases hok
      | ok y => simp [TypeConvertingIterator.make, hfa]
  · show drainAux (some f) src = .ok ys
    rw [drainAux_eq_convertEach]
    exact hok

/-- Witness for C5: TypeConvertingIterator(["1","2","3"], int) yields
[1, 2, 3] in order. -/
theorem typeConvertingIterator_yields_all_witness :
    TypeConvertingIterator.make [PyVal.str "1", PyVal.str "2", PyVal.str "3"]
      (some pyIntFun)
      = .ok ⟨[PyVal.str "1", PyVal.str "2", PyVal.str "3"], some pyIntFun⟩ ∧
    TypeConvertingIterator.toList
      ⟨[PyVal.str "1", PyVal.str "2", PyVal.str "3"], some pyIntFun⟩
      = .ok [PyVal.int 1, PyVal.int 2, PyVal.int 3] :=
  typeConvertingIterator_yields_all
    [PyVal.str "1", PyVal.str "2", PyVal.str "3"] pyIntFun
    [PyVal.int 1, PyVal.int 2, PyVal.int 3] (by simp) rfl

/-- C9: a pre-split list input is used as-is, without whitespace stripping:
ChoiceCommaSeparated validates and returns the elements untrimmed (so
[" a "] fails against choices ["a"], which trimmed input would match), and
ListCommaSeparated (unique=False) returns the list unchanged. -/
theorem listInput_not_stripped :
    (∀ (c : ChoiceCommaSeparated) (xs : List String),
      xs ≠ [] →
      (c.allow_wildcard && xs.any (fun v => v = "*" || v = "all")) = false →
      (∀ p ∈ xs, c.partOk p = true) →
      c.convert (.list xs) = .ok xs) ∧
    (∀ xs : List String, xs ≠ [] →
      ListCommaSeparated.convert ⟨false⟩ (.list xs) = xs) ∧
    ChoiceCommaSeparated.convert ⟨["a"], true, true⟩ (.list [" a "])
      = .error "Value  a  is not a valid choice." ∧
    ListCommaSeparated.convert ⟨false⟩ (.list [" a "]) = [" a "] := by
  refine ⟨?_, ?_, by rfl, by rfl⟩
  · intro c xs hne hwild hvalid
    have hfind : xs.find? (fun val => !(c.partOk val)) = none := by
      rw [List.find?_eq_none]
      intro p hp
      simp [hvalid p hp]
    simp [ChoiceCommaSeparated.convert, pyFalsy, hne, hwild, hfind]
  · intro xs hne
    simp [ListCommaSeparated.convert, pyFalsy, hne]

/-- Witness for C9: the list [" x "] with choices [" x "] is accepted and
returned untrimmed; [" a ", " b "] passes through ListCommaSeparated
(unique=False) unchanged. -/
theorem listInput_not_stripped_witness :
    ChoiceCommaSeparated.convert ⟨[" x "], true, true⟩ (.list [" x "])
      = .ok [" x "] ∧
    ListCommaSeparated.convert ⟨false⟩ (.list [" a ", " b "]) = [" a ", " b "] :=
  ⟨listInput_not_stripped.1 ⟨[" x "], true, true⟩ [" x "]
     (by simp) (by decide) (by decide),
   listInput_not_stripped.2.1 [" a ", " b "] (by simp)⟩

/-- C10: StringsListOrStdinParamType applies no empty-input special case:
the empty-string token yields the one-element list [""], while
ChoiceCommaSeparated and ListCommaSeparated map the same falsy token to the
empty list. -/
theorem stringsListOrStdin_empty_token :
    StringsListOrStdinParamType.convert (.str "") = .list [""] ∧
    (∀ c : ChoiceCommaSeparated, c.convert (.str "") = .ok []) ∧
    (∀ u : ListCommaSeparated, u.convert (.str "") = []) := by
  refine ⟨rfl, fun c => ?_, fun u => ?_⟩
  · simp [ChoiceCommaSeparated.convert, pyFalsy]
  · simp [ListCommaSeparated.convert, pyFalsy]

/-- C2: for every ChoiceCommaSeparated instance and every non-wildcard part:
with case_sensitive=True (the default) the part is accepted iff its
lower-cased form equals the lower-cased form of some configured choice (a
case-insensitive check, despite the flag name), and with
case_sensitive=False iff it is exactly equal to some configured choice; in
particular choices=["Apple"] accepts "apple" by default, and with
case_sensitive=False choices=["apple","banana"] rejects "Apple" but accepts
"apple". -/
theorem choiceCommaSeparated_case_semantics :
    (∀ (c : ChoiceCommaSeparated) (val : String),
      val ≠ "*" → val ≠ "all" →
      (c.convert (.list [val]) = .ok [val] ↔
        (if c.case_sensitive then ∃ ch ∈ c.choices, pyLower val = pyLower ch
         else val ∈ c.choices))) ∧
    ChoiceCommaSeparated.convert ⟨["Apple"], true, true⟩ (.str "apple")
      = .ok ["apple"] ∧
    ChoiceCommaSeparated.convert ⟨["apple", "banana"], true, false⟩ (.str "Apple")
      = .error "Value Apple is not a valid choice." ∧
    ChoiceCommaSeparated.convert ⟨["apple", "banana"], true, false⟩ (.str "apple")
      = .ok ["apple"] := by
  refine ⟨?_, by rfl, by rfl, by rfl⟩
  intro c val h1 h2
  have hany : ([val].any (fun v => v = "*" || v = "all")) = false := by
    simp [h1, h2]
  have hconv : c.convert (.list [val])
      = if c.partOk val then .ok [val]
        else .error ("Value " ++ val ++ " is not a valid choice.") := by
    cases hpo : c.partOk val <;>
      simp [ChoiceCommaSeparated.convert, pyFalsy, hany, List.find?_cons, hpo]
  rw [hconv, ← partOk_iff]
  cases hpo : c.partOk val <;> simp [hpo]

/-- Witness for C2: with the default case_sensitive=True, choices=["Apple"]
accepts the pre-split part "apple". -/
theorem choiceCommaSeparated_case_semantics_witness :
    ChoiceCommaSeparated.convert ⟨["Apple"], true, true⟩ (.list ["apple"])
      = .ok ["apple"] :=
  (choiceCommaSeparated_case_semantics.1 ⟨["Apple"], true, true⟩ "apple"
      (by decide) (by decide)).mpr
    (by exact ⟨"Apple", by simp, by decide⟩)

/-- C7: a non-empty comma-separated string token is split on commas and
every part is stripped of surrounding whitespace before validation and
before the returned list is produced, for both ChoiceCommaSeparated and
ListCommaSeparated; in particular the token " a , b " produces the parts
"a" and "b". -/
theorem commaSeparated_strip_parts :
    (∀ (c : ChoiceCommaSeparated) (s : String),
      s ≠ "" →
      (c.allow_wildcard && (strippedParts s).any (fun v => v = "*" || v = "all"))
        = false →
      (∀ p ∈ strippedParts s, c.partOk p = true) →
      c.convert (.str s) = .ok (strippedParts s)) ∧
    (∀ s : String, s ≠ "" →
      ListCommaSeparated.convert ⟨false⟩ (.str s) = strippedParts s) ∧
    (∀ (s x : String), s ≠ "" →
      (x ∈ ListCommaSeparated.convert ⟨true⟩ (.str s) ↔ x ∈ strippedParts s)) ∧
    strippedParts " a , b " = ["a", "b"] ∧
    ChoiceCommaSeparated.convert ⟨["a", "b"], true, true⟩ (.str " a , b ")
      = .ok ["a", "b"] ∧
    ListCommaSeparated.convert ⟨true⟩ (.str " a , b ") = ["a", "b"] := by
  refine ⟨?_, ?_, ?_, by decide, by rfl, by rfl⟩
  · intro c s hne hwild hvalid
    have hfalsy : pyFalsy (.str s) = false := by simp [pyFalsy, hne]
    have hfind : (strippedParts s).find? (fun val => !(c.partOk val)) = none := by
      rw [List.find?_eq_none]
      intro p hp
      simp [hvalid p hp]
    simp only [strippedParts] at hwild hfind
    simp only [ChoiceCommaSeparated.convert, hfalsy, Bool.false_eq_true, if_false,
      hwild, hfind, strippedParts]
  · intro s hne
    simp [ListCommaSeparated.convert, pyFalsy, hne, strippedParts]
  · intro s x hne
    simp [ListCommaSeparated.convert, pyFalsy, hne, mem_pySetList, strippedParts]

/-- Witness for C7: the token " a , b " against choices ["a","b"] and
through ListCommaSeparated. -/
theorem commaSeparated_strip_parts_witness :
    ChoiceCommaSeparated.convert ⟨["a", "b"], true, true⟩ (.str " a , b ")
      = .ok (strippedParts " a , b ") ∧
    ListCommaSeparated.convert ⟨false⟩ (.str " a , b ")
      = strippedParts " a , b " ∧
    ("a" ∈ ListCommaSeparated.convert ⟨true⟩ (.str " a , b ") ↔
      "a" ∈ strippedParts " a , b ") :=
  ⟨commaSeparated_strip_parts.1 ⟨["a", "b"], true, true⟩ " a , b "
     (by decide) (by decide) (by decide),
   commaSeparated_strip_parts.2.1 " a , b " (by decide),
   commaSeparated_strip_parts.2.2.1 " a , b " "a" (by decide)⟩

/-- C8: with allow_wildcard enabled, the wildcard check runs before any
per-part validation: whenever some part of the token is exactly "*" or
"all", the full configured choice list is returned, even if other parts are
not valid choices; e.g. "bogus,*" returns all choices although "bogus"
alone is rejected. -/
theorem choiceCommaSeparated_wildcard_short_circuit :
    (∀ (c : ChoiceCommaSeparated) (s : String),
      c.allow_wildcard = true → s ≠ "" →
      (∃ p ∈ strippedParts s, p = "*" ∨ p = "all") →
      c.convert (.str s) = .ok c.choices) ∧
    ChoiceCommaSeparated.convert ⟨["apple", "banana"], true, true⟩ (.str "bogus,*")
      = .ok ["apple", "banana"] ∧
    ChoiceCommaSeparated.convert ⟨["apple", "banana"], true, true⟩ (.str "bogus")
      = .error "Value bogus is not a valid choice." := by
  refine ⟨?_, by rfl, by rfl⟩
  intro c s hw hne hex
  have hany : ((strippedParts s).any (fun v => v = "*" || v = "all")) = true := by
    rw [List.any_eq_true]
    obtain ⟨p, hp, hpe⟩ := hex
    exact ⟨p, hp, by simpa using hpe⟩
  simp only [strippedParts] at hany
  simp [ChoiceCommaSeparated.convert, pyFalsy, hne, hw, hany]

/-- Witness for C8: "bogus,*" against choices ["apple","banana"]. -/
theorem choiceCommaSeparated_wildcard_short_circuit_witness :
    ChoiceCommaSeparated.convert ⟨["apple", "banana"], true, true⟩ (.str "bogus,*")
      = .ok (ChoiceCommaSeparated.choices ⟨["apple", "banana"], true, true⟩) :=
  choiceCommaSeparated_wildcard_short_circuit.1 ⟨["apple", "banana"], true, true⟩
    "bogus,*" rfl (by decide) ⟨"*", by decide, Or.inl rfl⟩

/-- C3 counterexample: on the token "-" with standard input holding
"hello\nworld\n", FileUrlIterStringParamType.convert returns the stdin text
stream, whose iteration yields the lines WITH their trailing newline
characters — ["hello\n", "world\n"], not the claimed ["hello", "world"].
(The URL branch, by contrast, uses splitlines, which drops them.) -/
theorem stdin_lines_keep_newline_counterexample :
    FileUrlIterStringParamType.convert "r" envC3 "-" = .ok ["hello\n", "world\n"] ∧
    (["hello\n", "world\n"] ≠ (["hello", "world"] : List String)) :=
  ⟨rfl, by decide⟩

/-- C3 amended: on the token "-" with stdin "hello\nworld\n", iteration
yields ["hello\n", "world\n"] (line content WITH the trailing newline);
this matches what the converter yields for a 200-status URL with the same
body — ["hello", "world"] — only after the trailing newline characters are
removed. -/
theorem stdin_lines_keep_newline_amended :
    FileUrlIterStringParamType.convert "r" envC3 "-" = .ok ["hello\n", "world\n"] ∧
    FileUrlIterStringParamType.convert "r" envC3 "http://x/t"
      = .ok ["hello", "world"] ∧
    ["hello\n", "world\n"].map pyStripNl = ["hello", "world"] :=
  ⟨rfl, rfl, by decide⟩

/-- C1 counterexample: at a URL answering with status 404, both
FileUrlIterStringParamType.convert and FileOrUrlParamType.convert fail with
the message "Error while fetching <url>: Url <url> does not return 200 OK":
the status failure raised inside the try-block is caught by the
except-clause and re-raised in the SAME "fetch error" form used for
transport failures (compare the transport case below), and the message does
not contain the status 404.  So the non-2xx condition is neither distinct
from the fetch-error condition nor does it name the status. -/
theorem httpStatus_error_counterexample :
    FileUrlIterStringParamType.convert "r" envC1 "http://e/x"
      = .error
        "Error while fetching http://e/x: Url http://e/x does not return 200 OK" ∧
    strContains
      "Error while fetching http://e/x: Url http://e/x does not return 200 OK"
      "404" = false ∧
    (FileOrUrlParamType.convert "r" envC1 "tmp0" (some ()) "http://e/x").result
      = .error
        "Error while fetching http://e/x: Url http://e/x does not return 200 OK" ∧
    FileUrlIterStringParamType.convert "r" envC1T "http://e/x"
      = .error "Error while fetching http://e/x: boom" :=
  ⟨rfl, by decide, rfl, rfl⟩

/-- C1 amended: when the GET completes with a status in [400, 600) (requests
treats every other status, including 3xx, as ok), both converters fail, but
the status failure is raised inside the try-block and caught by the same
except-clause that handles transport errors, so the final condition is the
fetch-error one wrapping the fixed text "Url <url> does not return 200 OK":
it names the URL but not the numeric status.  A transport-level failure
produces the same fetch-error wrapping around the underlying cause. -/
theorem httpStatus_error_amended :
    (∀ (env : Env) (mode u tmpName : String) (ctx : Option Unit) (st : Nat)
      (content : String),
      strContains mode "r" = true →
      fsHas env.fs u = false →
      env.urlValid u = true →
      env.http u = .resp st content →
      400 ≤ st → st < 600 →
      FileUrlIterStringParamType.convert mode env u
        = .error ("Error while fetching " ++ u ++ ": "
            ++ ("Url " ++ u ++ " does not return 200 OK")) ∧
      (FileOrUrlParamType.convert mode env tmpName ctx u).result
        = .error ("Error while fetching " ++ u ++ ": "
            ++ ("Url " ++ u ++ " does not return 200 OK"))) ∧
    (∀ (env : Env) (mode u tmpName : String) (ctx : Option Unit) (m : String),
      strContains mode "r" = true →
      fsHas env.fs u = false →
      env.urlValid u = true →
      env.http u = .err m →
      FileUrlIterStringParamType.convert mode env u
        = .error ("Error while fetching " ++ u ++ ": " ++ m) ∧
      (FileOrUrlParamType.convert mode env tmpName ctx u).result
        = .error ("Error while fetching " ++ u ++ ": " ++ m)) := by
  constructor
  · intro env mode u tmpName ctx st content hm hfs hurl hhttp h4 h6
    have hok : pyOk st = false := by
      unfold pyOk
      rw [decide_eq_true h4, decide_eq_true h6]
      rfl
    have hfetch : fetchBody env u
        = .error ("Url " ++ u ++ " does not return 200 OK") := by
      simp [fetchBody, hhttp, hok]
    constructor
    · simp [FileUrlIterStringParamType.convert, hm, hfs, hurl, hfetch]
    · simp [FileOrUrlParamType.convert, hm, hurl, hfetch]
  · intro env mode u tmpName ctx m hm hfs hurl hhttp
    have hfetch : fetchBody env u = .error m := by
      simp [fetchBody, hhttp]
    constructor
    · simp [FileUrlIterStringParamType.convert, hm, hfs, hurl, hfetch]
    · simp [FileOrUrlParamType.convert, hm, hurl, hfetch]

/-- Witness for the amended C1: the 404 environment and the transport-error
environment, both on FileUrlIterStringParamType and FileOrUrlParamType. -/
theorem httpStatus_error_amended_witness :
    (FileUrlIterStringParamType.convert "r" envC1 "http://e/x"
      = .error ("Error while fetching " ++ "http://e/x" ++ ": "
          ++ ("Url " ++ "http://e/x" ++ " does not return 200 OK")) ∧
     (FileOrUrlParamType.convert "r" envC1 "tmp0" none "http://e/x").result
      = .error ("Error while fetching " ++ "http://e/x" ++ ": "
          ++ ("Url " ++ "http://e/x" ++ " does not return 200 OK"))) ∧
    (FileUrlIterStringParamType.convert "r" envC1T "http://e/x"
      = .error ("Error while fetching " ++ "http://e/x" ++ ": " ++ "boom") ∧
     (FileOrUrlParamType.convert "r" envC1T "tmp0" none "http://e/x").result
      = .error ("Error while fetching " ++ "http://e/x" ++ ": " ++ "boom")) :=
  ⟨httpStatus_error_amended.1 envC1 "r" "http://e/x" "tmp0" none 404 "Not Found"
     (by decide) rfl (by decide) rfl (by decide) (by decide),
   httpStatus_error_amended.2 envC1T "r" "http://e/x" "tmp0" none "boom"
     (by decide) rfl (by decide) rfl⟩

/-- C6: whenever FileOrUrlParamType (URL token) or StringOrFileParamType
(literal-text token) creates a temporary file and an invocation context is
present, exactly one cleanup deleting that file is registered on the
context, the file exists afterwards; the registered cleanup removes the
file, a deletion attempt on an already-absent file changes nothing and
raises nothing (the cleanup is a total function — OSError is swallowed),
and a second run of the cleanup is a no-op, so the file is deleted at most
once. -/
theorem tempfile_cleanup :
    (∀ (env : Env) (mode u tmpName content : String) (st : Nat),
      env.urlValid u = true →
      strContains mode "r" = true →
      env.http u = .resp st content →
      pyOk st = true →
      (FileOrUrlParamType.convert mode env tmpName (some ()) u).registered
        = [tmpName] ∧
      fsHas (FileOrUrlParamType.convert mode env tmpName (some ()) u).fs tmpName
        = true) ∧
    (∀ (env : Env) (tmpName v : String),
      v ≠ "-" →
      fsHas env.fs v = false →
      (StringOrFileParamType.convert env tmpName (some ()) v).registered
        = [tmpName] ∧
      fsHas (StringOrFileParamType.convert env tmpName (some ()) v).fs tmpName
        = true) ∧
    (∀ (tmpName : String) (fs : List (String × String)),
      fsHas (unlinkSilently tmpName fs) tmpName = false) ∧
    (∀ (tmpName : String) (fs : List (String × String)),
      fsHas fs tmpName = false → unlinkSilently tmpName fs = fs) ∧
    (∀ (tmpName : String) (fs : List (String × String)),
      unlinkSilently tmpName (unlinkSilently tmpName fs)
        = unlinkSilently tmpName fs) := by
  refine ⟨?_, ?_, ?_, ?_, ?_⟩
  · intro env mode u tmpName content st hurl hm hhttp hok
    have hfetch : fetchBody env u = .ok content := by
      simp [fetchBody, hhttp, hok]
    have hout : FileOrUrlParamType.convert mode env tmpName (some ()) u
        = ⟨clickFileOpen (env.fs ++ [(tmpName, content)]) tmpName,
           env.fs ++ [(tmpName, content)], [tmpName]⟩ := by
      simp [FileOrUrlParamType.convert, hurl, hm, hfetch]
    rw [hout]
    exact ⟨rfl, fsHas_append_self env.fs tmpName content⟩
  · intro env tmpName v hv hfs
    have hfs2 : (env.fs.any fun p => p.1 == v) = false := hfs
    have hout : StringOrFileParamType.convert env tmpName (some ()) v
        = ⟨clickFileOpen (env.fs ++ [(tmpName, v)]) tmpName,
           env.fs ++ [(tmpName, v)], [tmpName]⟩ := by
      simp [StringOrFileParamType.convert, hv, fsHas, hfs2]
    rw [hout]
    exact ⟨rfl, fsHas_append_self env.fs tmpName v⟩
  · intro tmpName fs
    unfold fsHas unlinkSilently
    induction fs with
    | nil => rfl
    | cons a l ih =>
      by_cases h : a.1 == tmpName <;> simp [List.filter_cons, h, ih]
  · intro tmpName fs hfs
    have hfs2 : (fs.any fun p => p.1 == tmpName) = false := hfs
    unfold unlinkSilently
    rw [List.filter_eq_self]
    intro a ha
    rw [List.any_eq_false] at hfs2
    simpa using hfs2 a ha
  · intro tmpName fs
    unfold unlinkSilently
    rw [List.filter_filter]
    simp

/-- Witness for C6: a successful URL download and a literal-text token, each
with an invocation context, register exactly one cleanup for the temp file;
that cleanup deletes it, and deleting it again changes nothing. -/
theorem tempfile_cleanup_witness :
    ((FileOrUrlParamType.convert "r" envC6 "tmp0" (some ()) "http://e/x").registered
      = ["tmp0"] ∧
     fsHas (FileOrUrlParamType.convert "r" envC6 "tmp0" (some ()) "http://e/x").fs
       "tmp0" = true) ∧
    ((StringOrFileParamType.convert envC6 "tmp1" (some ()) "hello text").registered
      = ["tmp1"] ∧
     fsHas (StringOrFileParamType.convert envC6 "tmp1" (some ()) "hello text").fs
       "tmp1" = true) ∧
    fsHas (unlinkSilently "tmp0" [("tmp0", "data")]) "tmp0" = false ∧
    unlinkSilently "tmp0" [] = [] :=
  ⟨tempfile_cleanup.1 envC6 "r" "http://e/x" "tmp0" "data" 200
     (by decide) (by decide) rfl (by decide),
   tempfile_cleanup.2.1 envC6 "tmp1" "hello text" (by decide) rfl,
   tempfile_cleanup.2.2.1 "tmp0" [("tmp0", "data")],
   tempfile_cleanup.2.2.2.1 "tmp0" [] rfl⟩

end ClickTools
